import Mathlib

/-!
Verification of the text-extraction pipeline in src/text_extractor.py.

The Python program is a thin sequential pipeline: it preprocesses each image
(RGB conversion, thumbnail to at most 8192x8192, JPEG + base64 encoding),
sends it to a remote vision model, and writes a detail report plus a summary
file.  We embed the program shallowly:

* A PIL image is modelled by its mode and pixel dimensions (`PILImage`);
  the base64 payload produced by `encode_image_to_base64` is modelled by the
  image it decodes back to, since every claim about the payload concerns the
  decoded dimensions.  PIL `Image.thumbnail` computes the target size with
  exact float arithmetic on small integers; we model it with rationals
  (`thumbnailSize`, `round_aspect`), following the Pillow source.
* `extract_text_from_image` wraps its whole body in try/except; fallible
  steps (image decoding, the network call) are passed in as `Except` values,
  and the except branch is the `.error` case.  The response object is
  modelled by `ChatResponse` (a list of choices whose message content is an
  optional string, as in the OpenAI client, where a null content raises an
  AttributeError at `.strip()`).
* `main` is modelled as a pure function from a `MainInput` (environment and
  filesystem facts plus oracles for the two extraction passes) to a
  `RunOutcome`: an ordered trace of observable effects and a flag telling
  whether the try block completed normally or the top-level except branch
  ran.  Incremental appends to a report file are collapsed into one
  `writeFile` effect carrying the final content, in program order.
-/

namespace TextExtractor

/-- A decoded raster image: PIL mode string plus pixel dimensions. -/
structure PILImage where
  mode : String
  width : Nat
  height : Nat
deriving DecidableEq, Repr

/-- The fixed maximum dimension from encode_image_to_base64 (max_size = 8192). -/
def max_size : Nat := 8192

/-- Pillow thumbnail rounding helper:
round_aspect(number, key) = max(min(floor(number), ceil(number), key=key), 1).
Python min with a key returns the first argument on ties, hence the floor. -/
def round_aspect (number : ℚ) (key : ℤ → ℚ) : ℤ :=
  max (if key ⌊number⌋ ≤ key ⌈number⌉ then ⌊number⌋ else ⌈number⌉) 1

/-- Target size computed by PIL Image.thumbnail((max_size, max_size)):
fit-within-box scaling preserving aspect ratio; returns the input unchanged
when it already fits. -/
def thumbnailSize (w h : Nat) : Nat × Nat :=
  let x : Nat := max_size
  let y : Nat := max_size
  if x ≥ w ∧ y ≥ h then (w, h)
  else
    let aspect : ℚ := (w : ℚ) / (h : ℚ)
    if (x : ℚ) / (y : ℚ) ≥ aspect then
      ((round_aspect ((y : ℚ) * aspect) (fun n => |aspect - (n : ℚ) / (y : ℚ)|)).toNat, y)
    else
      (x, (round_aspect ((x : ℚ) / aspect)
            (fun n => if n = 0 then 0 else |aspect - (x : ℚ) / (n : ℚ)|)).toNat)

/-- The body of encode_image_to_base64 on a decoded image: convert to RGB if
the mode differs, thumbnail when either dimension exceeds max_size. -/
def processedImage (img : PILImage) : PILImage :=
  let img1 := if img.mode ≠ "RGB" then { img with mode := "RGB" } else img
  if img1.width > max_size ∨ img1.height > max_size then
    let p := thumbnailSize img1.width img1.height
    { img1 with width := p.1, height := p.2 }
  else img1

/-- encode_image_to_base64: opening a corrupt file raises (the `none` case);
a decodable image is processed and re-encoded.  The returned value models
the image the base64 JPEG payload decodes back to. -/
def encode_image_to_base64 (file : Option PILImage) : Except String PILImage :=
  match file with
  | none => .error "cannot identify image file"
  | some img => .ok (processedImage img)

/-- One message of a chat completion choice; content may be null. -/
structure ChatMessage where
  content : Option String
deriving DecidableEq

/-- One choice of a chat completion response. -/
structure ChatChoice where
  message : ChatMessage
deriving DecidableEq

/-- A chat completion response: a list of choices. -/
structure ChatResponse where
  choices : List ChatChoice
deriving DecidableEq

/-- str.strip(): drop whitespace characters from both ends.  Written over the
character list so that it is structurally recursive and kernel-evaluable. -/
def pyStrip (s : String) : String :=
  String.mk (((s.data.dropWhile Char.isWhitespace).reverse.dropWhile
      Char.isWhitespace).reverse)

/-- Message of the Python AttributeError raised by calling strip on None. -/
def attrErrorNoneStrip : String := "'NoneType' object has no attribute 'strip'"

/-- The body of the try block of extract_text_from_image: encode the image,
make the network call, take response.choices[0].message.content and strip it.
Each step may raise (the `.error` case carries str(e)). -/
def extract_body (encodeResult : Except String String)
    (apiCall : String → Except String ChatResponse) : Except String String :=
  match encodeResult with
  | .error e => .error e
  | .ok b64 =>
    match apiCall b64 with
    | .error e => .error e
    | .ok response =>
      match response.choices with
      | [] => .error "list index out of range"
      | choice :: _ =>
        match choice.message.content with
        | none => .error attrErrorNoneStrip
        | some text => .ok (pyStrip text)

/-- extract_text_from_image: the try body with the except branch that turns
any exception into the string "Error processing {image_path}: {str(e)}". -/
def extract_text_from_image (image_path : String)
    (encodeResult : Except String String)
    (apiCall : String → Except String ChatResponse) : String :=
  match extract_body encodeResult apiCall with
  | .ok text => text
  | .error e => "Error processing " ++ image_path ++ ": " ++ e

/-- Fixed output directory of main. -/
def output_dir : String := "extracted_text"

/-- Fixed input directory of main. -/
def images_dir : String := "images"

/-- The accepted image extensions, as in main. -/
def image_extensions : List String := [".jpg", ".jpeg", ".png", ".bmp", ".tiff", ".tif"]

/-- str.lower(), over the character list (kernel-evaluable). -/
def pyLower (s : String) : String := String.mk (s.data.map Char.toLower)

/-- str.endswith(pat), over the character lists (kernel-evaluable). -/
def pyEndsWith (s pat : String) : Bool := pat.data.isSuffixOf s.data

/-- The per-file test of the discovery loop:
any(file.lower().endswith(ext) for ext in image_extensions). -/
def isImageFile (file : String) : Bool :=
  image_extensions.any (fun ext => pyEndsWith (pyLower file) ext)

/-- The discovery loop over os.listdir(images_dir): keep matching names and
join them with the directory (os.path.join on posix is images_dir ++ "/"). -/
def discoverImageFiles (listing : List String) : List String :=
  (listing.filter (fun file => isImageFile file)).map
    (fun file => images_dir ++ "/" ++ file)

/-- Lexicographic comparison of character lists by code point, the order
Python uses to compare strings. -/
def lexLeChars : List Char → List Char → Bool
  | [], _ => true
  | _ :: _, [] => false
  | a :: as, b :: bs => if a = b then lexLeChars as bs else decide (a < b)

/-- Python string comparison a <= b (lexicographic by code point). -/
def pyLe (a b : String) : Prop := lexLeChars a.data b.data = true

instance : DecidableRel pyLe := fun a b => by
  unfold pyLe
  infer_instance

/-- image_files.sort(): stable sort by the lexicographic string order. -/
def sortedImageFiles (listing : List String) : List String :=
  List.insertionSort pyLe (discoverImageFiles listing)

/-- os.path.basename of a posix path: the part after the last slash. -/
def basename (p : String) : String :=
  String.mk ((p.data.reverse.takeWhile (fun c => c ≠ '/')).reverse)

/-- A run of n copies of a character, as in the Python repetition of a
one-character string. -/
def rule (c : Char) (n : Nat) : String := String.mk (List.replicate n c)

/-- Helper of pySplit: walk the characters, accumulating the current word in
reverse; whitespace ends the word. -/
def wordsAux : List Char → List Char → List String
  | [], acc => if acc = [] then [] else [String.mk acc.reverse]
  | c :: cs, acc =>
    if c.isWhitespace then
      if acc = [] then wordsAux cs [] else String.mk acc.reverse :: wordsAux cs []
    else wordsAux cs (c :: acc)

/-- str.split() with no argument: split on whitespace runs, no empty pieces. -/
def pySplit (s : String) : List String := wordsAux s.data []

/-- word_count = len(extracted_text.split()). -/
def word_count (text : String) : Nat := (pySplit text).length

/-- char_count = len(extracted_text): Python len counts code points, as does
String.length. -/
def char_count (text : String) : Nat := text.length

/-- Path of the detail report file for a run timestamp. -/
def reportFilePath (timestamp : String) : String :=
  output_dir ++ "/extracted_text_" ++ timestamp ++ ".txt"

/-- Path of the summary file for the same run timestamp. -/
def summaryFilePath (timestamp : String) : String :=
  output_dir ++ "/summary_" ++ timestamp ++ ".txt"

/-- Header block of the detail report. -/
def reportHeader (count : Nat) (dateStr : String) : String :=
  rule '=' 80 ++ "\n"
  ++ "TEXT EXTRACTION FROM AUTOCLAVE IMAGES (GPT-4 Vision)\n"
  ++ rule '=' 80 ++ "\n"
  ++ "Extraction Date: " ++ dateStr ++ "\n"
  ++ "Total Images Processed: " ++ toString count ++ "\n"
  ++ rule '=' 80 ++ "\n\n"

/-- One per-image block of the detail report (loop body of the first pass). -/
def reportBlock (i : Nat) (image_path text : String) : String :=
  "IMAGE " ++ toString i ++ ": " ++ basename image_path ++ "\n"
  ++ rule '-' 60 ++ "\n"
  ++ text
  ++ "\n\n" ++ rule '=' 80 ++ "\n\n"

/-- Final content of the detail report file: header then the blocks for the
files in order, indices starting at 1, text produced by the first-pass
extraction oracle. -/
def reportContent (files : List String) (extract1 : String → String)
    (dateStr : String) : String :=
  reportHeader files.length dateStr
  ++ String.join (files.enum.map
      (fun p => reportBlock (p.1 + 1) p.2 (extract1 p.2)))

/-- Header of the summary file. -/
def summaryHeader (count : Nat) (dateStr : String) : String :=
  "EXTRACTION SUMMARY\n"
  ++ rule '=' 50 ++ "\n"
  ++ "Date: " ++ dateStr ++ "\n"
  ++ "Images processed: " ++ toString count ++ "\n\n"

/-- One per-image block of the summary file (loop body of the second pass). -/
def summaryBlock (i : Nat) (image_path text : String) : String :=
  toString i ++ ". " ++ basename image_path ++ "\n"
  ++ "   Words: " ++ toString (word_count text)
  ++ ", Characters: " ++ toString (char_count text) ++ "\n"
  ++ "   Preview: " ++ text.take 100 ++ "...\n\n"

/-- Final content of the summary file, from the second-pass oracle. -/
def summaryContent (files : List String) (extract2 : String → String)
    (dateStr : String) : String :=
  summaryHeader files.length dateStr
  ++ String.join (files.enum.map
      (fun p => summaryBlock (p.1 + 1) p.2 (extract2 p.2)))

/-- An observable effect of one run of main, in program order. -/
inductive Effect where
  | printLine (s : String)
  | mkdir (d : String)
  | listDir (d : String)
  | extractCall (image_path : String)
  | writeFile (path content : String)
deriving DecidableEq

/-- The environment and filesystem facts a run of main depends on, plus
oracles for the text the two extraction passes obtain per image. -/
structure MainInput where
  apiKeyPresent : Bool
  connOk : Bool
  connErrMsg : String
  outputDirExists : Bool
  listing : List String
  extractFirst : String → String
  extractSecond : String → String
  timestamp : String
  dateStr1 : String
  dateStr2 : String

/-- Outcome of a run of main: the effect trace and whether the try block
finished normally (false when the top-level except branch printed). -/
structure RunOutcome where
  trace : List Effect
  normalExit : Bool

/-- The part of the main trace from the emptiness test on: bail out with a
notice when no image matched, otherwise sort once and run both passes. -/
def afterListing (inp : MainInput) : List Effect :=
  let image_files := discoverImageFiles inp.listing
  if image_files = [] then
    [Effect.printLine "No image files found in the images directory."]
  else
    let files := List.insertionSort pyLe image_files
    [Effect.printLine ("Processing " ++ toString files.length ++ " images..."),
     Effect.printLine ("Output will be saved to: " ++ reportFilePath inp.timestamp)]
    ++ List.flatten (files.enum.map (fun p =>
        [Effect.printLine ("Processing " ++ toString (p.1 + 1) ++ "/"
           ++ toString files.length ++ ": " ++ basename p.2),
         Effect.extractCall p.2]))
    ++ [Effect.writeFile (reportFilePath inp.timestamp)
          (reportContent files inp.extractFirst inp.dateStr1),
        Effect.printLine "\nText extraction completed!",
        Effect.printLine ("Results saved to: " ++ reportFilePath inp.timestamp)]
    ++ files.map (fun p => Effect.extractCall p)
    ++ [Effect.writeFile (summaryFilePath inp.timestamp)
          (summaryContent files inp.extractSecond inp.dateStr2),
        Effect.printLine ("Summary saved to: " ++ summaryFilePath inp.timestamp)]

/-- The effect trace of main once the environment check passed: create the
output directory if absent, list the input directory, then the rest. -/
def mainBody (inp : MainInput) : List Effect :=
  (if inp.outputDirExists then [] else [Effect.mkdir output_dir])
  ++ [Effect.listDir images_dir]
  ++ afterListing inp

/-- main: check_environment first (missing key raises ValueError, a failing
connectivity probe raises; both are caught by the top-level except, which
prints "An error occurred: {str(e)}"), then the body. -/
def main (inp : MainInput) : RunOutcome :=
  if inp.apiKeyPresent = false then
    { trace := [Effect.printLine "An error occurred: OPENAI_API_KEY not found in environment variables. Please check your .env file."],
      normalExit := false }
  else if inp.connOk = false then
    { trace := [Effect.printLine ("An error occurred: Failed to connect to OpenAI API: " ++ inp.connErrMsg)],
      normalExit := false }
  else
    { trace := [Effect.printLine "✓ Successfully connected to OpenAI API"]
        ++ mainBody inp,
      normalExit := true }

/-- Paths of the files written in a trace. -/
def filesWritten (tr : List Effect) : List String :=
  tr.filterMap (fun e => match e with
    | Effect.writeFile p _ => some p
    | _ => none)

/-- Image paths for which an extraction call happened in a trace. -/
def extractCalls (tr : List Effect) : List String :=
  tr.filterMap (fun e => match e with
    | Effect.extractCall p => some p
    | _ => none)

/-- Directories created in a trace. -/
def dirsCreated (tr : List Effect) : List String :=
  tr.filterMap (fun e => match e with
    | Effect.mkdir d => some d
    | _ => none)

/-! Order-theoretic facts about the Python string order, needed to reason
about image_files.sort(). -/

theorem lexLeChars_total : ∀ a b : List Char,
    lexLeChars a b = true ∨ lexLeChars b a = true
  | [], _ => Or.inl rfl
  | _ :: _, [] => Or.inr rfl
  | a :: as, b :: bs => by
    by_cases hab : a = b
    · subst hab
      simpa [lexLeChars] using lexLeChars_total as bs
    · rcases lt_trichotomy a b with h | h | h
      · left
        simp [lexLeChars, hab, h]
      · exact absurd h hab
      · right
        simp [lexLeChars, Ne.symm hab, h]

theorem lexLeChars_trans : ∀ a b c : List Char,
    lexLeChars a b = true → lexLeChars b c = true → lexLeChars a c = true
  | [], _, _, _, _ => rfl
  | _ :: _, [], _, h, _ => by simp [lexLeChars] at h
  | _ :: _, _ :: _, [], _, h => by simp [lexLeChars] at h
  | a :: as, b :: bs, c :: cs, h1, h2 => by
    by_cases hab : a = b <;> by_cases hbc : b = c
    · subst hab; subst hbc
      simp only [lexLeChars, if_pos rfl] at h1 h2 ⊢
      exact lexLeChars_trans as bs cs h1 h2
    · subst hab
      simpa [lexLeChars, hbc] using h2
    · subst hbc
      simpa [lexLeChars, hab] using h1
    · simp only [lexLeChars, if_neg hab] at h1
      simp only [lexLeChars, if_neg hbc] at h2
      have hac : a < c := lt_trans (of_decide_eq_true h1) (of_decide_eq_true h2)
      simp [lexLeChars, ne_of_lt hac, hac]

theorem lexLeChars_antisymm : ∀ a b : List Char,
    lexLeChars a b = true → lexLeChars b a = true → a = b
  | [], [], _, _ => rfl
  | [], _ :: _, _, h => by simp [lexLeChars] at h
  | _ :: _, [], h, _ => by simp [lexLeChars] at h
  | a :: as, b :: bs, h1, h2 => by
    by_cases hab : a = b
    · subst hab
      simp only [lexLeChars, if_pos rfl] at h1 h2
      rw [lexLeChars_antisymm as bs h1 h2]
    · simp only [lexLeChars, if_neg hab] at h1
      simp only [lexLeChars, if_neg (Ne.symm hab)] at h2
      exact absurd (lt_trans (of_decide_eq_true h1) (of_decide_eq_true h2))
        (lt_irrefl a)

instance : IsTotal String pyLe :=
  ⟨fun a b => lexLeChars_total a.data b.data⟩

instance : IsTrans String pyLe :=
  ⟨fun a b c => lexLeChars_trans a.data b.data c.data⟩

instance : IsAntisymm String pyLe := by
  constructor
  intro a b h1 h2
  cases a with
  | mk da =>
    cases b with
    | mk db =>
      exact congrArg String.mk (lexLeChars_antisymm da db h1 h2)

theorem string_append_assoc (a b c : String) : a ++ b ++ c = a ++ (b ++ c) := by
  apply String.ext
  simp [String.data_append, List.append_assoc]

/-- Claim C1: for every image path, any failure of preprocessing, request
construction, the network call, or response parsing makes
extract_text_from_image return the string
"Error processing {path}: {message}" (which starts with "Error processing"
and contains the path) instead of raising; on success it returns the remote
answer with surrounding whitespace stripped. -/
theorem extract_error_and_success_contract
    (image_path : String) (enc : Except String String)
    (api : String → Except String ChatResponse) :
    (∀ e, extract_body enc api = .error e →
      extract_text_from_image image_path enc api
          = "Error processing " ++ image_path ++ ": " ++ e
        ∧ (∃ rest, extract_text_from_image image_path enc api
            = "Error processing" ++ rest)
        ∧ (∃ pre post, extract_text_from_image image_path enc api
            = pre ++ image_path ++ post))
    ∧ (∀ b64 resp choice more t,
        enc = .ok b64 → api b64 = .ok resp → resp.choices = choice :: more →
        choice.message.content = some t →
        extract_text_from_image image_path enc api = pyStrip t) := by
  constructor
  · intro e he
    have hr : extract_text_from_image image_path enc api
        = "Error processing " ++ image_path ++ ": " ++ e := by
      unfold extract_text_from_image
      rw [he]
    refine ⟨hr, ⟨" " ++ image_path ++ ": " ++ e, ?_⟩,
      ⟨"Error processing ", ": " ++ e, by rw [hr, string_append_assoc]⟩⟩
    rw [hr]
    have h1 : ("Error processing " : String) = "Error processing" ++ " " := by decide
    rw [h1]
    simp only [string_append_assoc]
  · intro b64 resp choice more t h1 h2 h3 h4
    have hb : extract_body enc api = .ok (pyStrip t) := by
      simp only [extract_body, h1, h2, h3, h4]
    simp only [extract_text_from_image, hb]

/-- Claim C1 witness: a corrupt file yields the error string; a successful
response is returned stripped. -/
theorem extract_error_and_success_contract_witness :
    extract_text_from_image "images/bad.jpg"
        (.error "cannot identify image file") (fun _ => .ok ⟨[]⟩)
      = "Error processing images/bad.jpg: cannot identify image file"
    ∧ extract_text_from_image "images/good.jpg" (.ok "QUJD")
        (fun _ => .ok ⟨[⟨⟨some "  H17 247°F 16P\n"⟩⟩]⟩)
      = "H17 247°F 16P" := by
  constructor
  · have h := ((extract_error_and_success_contract "images/bad.jpg"
      (.error "cannot identify image file") (fun _ => .ok ⟨[]⟩)).1
      "cannot identify image file" rfl).1
    rw [h]
    decide
  · have h := (extract_error_and_success_contract "images/good.jpg" (.ok "QUJD")
      (fun _ => .ok ⟨[⟨⟨some "  H17 247°F 16P\n"⟩⟩]⟩)).2
      "QUJD" ⟨[⟨⟨some "  H17 247°F 16P\n"⟩⟩]⟩ ⟨⟨some "  H17 247°F 16P\n"⟩⟩ []
      "  H17 247°F 16P\n" rfl rfl rfl rfl
    rw [h]
    decide

/-- Claim C9 (counterexample): when the remote service returns a null answer,
the AttributeError raised at the strip call does NOT propagate out of
extract_text_from_image: the except branch converts it into the recoverable
per-image "Error processing" result. -/
theorem null_answer_counterexample :
    extract_body (.ok "QUJD") (fun _ => .ok ⟨[⟨⟨none⟩⟩]⟩)
        = .error attrErrorNoneStrip
    ∧ ∃ e, extract_text_from_image "images/a.jpg" (.ok "QUJD")
        (fun _ => .ok ⟨[⟨⟨none⟩⟩]⟩)
      = "Error processing " ++ "images/a.jpg" ++ ": " ++ e := by
  exact ⟨rfl, attrErrorNoneStrip, by decide⟩

/-- Claim C9 (amended): if the remote service returns a null answer, the
attribute-access failure is caught by the per-image except handler and
converted into the "Error processing {path}: {message}" result; it does not
propagate past the extraction boundary. -/
theorem null_answer_amended (image_path b64 : String)
    (enc : Except String String) (api : String → Except String ChatResponse)
    (resp : ChatResponse) (choice : ChatChoice) (more : List ChatChoice)
    (h1 : enc = .ok b64) (h2 : api b64 = .ok resp)
    (h3 : resp.choices = choice :: more)
    (h4 : choice.message.content = none) :
    extract_body enc api = .error attrErrorNoneStrip
    ∧ extract_text_from_image image_path enc api
      = "Error processing " ++ image_path ++ ": " ++ attrErrorNoneStrip := by
  have hb : extract_body enc api = .error attrErrorNoneStrip := by
    simp only [extract_body, h1, h2, h3, h4]
  refine ⟨hb, ?_⟩
  simp only [extract_text_from_image, hb]

/-- Claim C9 witness for the amended statement, at a concrete null-content
response. -/
theorem null_answer_amended_witness :
    extract_body (.ok "Zm9v") (fun _ => .ok ⟨[⟨⟨none⟩⟩, ⟨⟨some "x"⟩⟩]⟩)
        = .error attrErrorNoneStrip
    ∧ extract_text_from_image "images/b.png" (.ok "Zm9v")
        (fun _ => .ok ⟨[⟨⟨none⟩⟩, ⟨⟨some "x"⟩⟩]⟩)
      = "Error processing " ++ "images/b.png" ++ ": " ++ attrErrorNoneStrip :=
  null_answer_amended "images/b.png" "Zm9v" (.ok "Zm9v")
    (fun _ => .ok ⟨[⟨⟨none⟩⟩, ⟨⟨some "x"⟩⟩]⟩) ⟨[⟨⟨none⟩⟩, ⟨⟨some "x"⟩⟩]⟩
    ⟨⟨none⟩⟩ [⟨⟨some "x"⟩⟩] rfl rfl rfl rfl

/-- Claim C6: when the API credential is missing, the run aborts before any
image is processed: the trace is exactly one top-level error notice, nothing
is listed, created, extracted, or written, and the try block did not finish
normally. -/
theorem missing_key_aborts (inp : MainInput)
    (hk : inp.apiKeyPresent = false) :
    (main inp).trace
      = [Effect.printLine "An error occurred: OPENAI_API_KEY not found in environment variables. Please check your .env file."]
    ∧ (main inp).normalExit = false
    ∧ filesWritten (main inp).trace = []
    ∧ extractCalls (main inp).trace = []
    ∧ dirsCreated (main inp).trace = [] := by
  have hm : main inp
      = { trace := [Effect.printLine "An error occurred: OPENAI_API_KEY not found in environment variables. Please check your .env file."],
          normalExit := false } := by
    simp [main, hk]
  rw [hm]
  exact ⟨rfl, rfl, rfl, rfl, rfl⟩

/-- Claim C6 witness: a concrete run with the credential absent. -/
theorem missing_key_aborts_witness :
    (main ⟨false, true, "", false, ["a.jpg"], fun _ => "t", fun _ => "t",
        "ts", "d1", "d2"⟩).trace
      = [Effect.printLine "An error occurred: OPENAI_API_KEY not found in environment variables. Please check your .env file."]
    ∧ (main ⟨false, true, "", false, ["a.jpg"], fun _ => "t", fun _ => "t",
        "ts", "d1", "d2"⟩).normalExit = false
    ∧ filesWritten (main ⟨false, true, "", false, ["a.jpg"], fun _ => "t",
        fun _ => "t", "ts", "d1", "d2"⟩).trace = []
    ∧ extractCalls (main ⟨false, true, "", false, ["a.jpg"], fun _ => "t",
        fun _ => "t", "ts", "d1", "d2"⟩).trace = []
    ∧ dirsCreated (main ⟨false, true, "", false, ["a.jpg"], fun _ => "t",
        fun _ => "t", "ts", "d1", "d2"⟩).trace = [] :=
  missing_key_aborts _ rfl

/-- Claim C5: with a valid environment and no matching image file, the run
terminates normally, prints the no-images notice, and writes neither a
report nor a summary file. -/
theorem zero_images_normal_termination (inp : MainInput)
    (hk : inp.apiKeyPresent = true) (hc : inp.connOk = true)
    (h0 : discoverImageFiles inp.listing = []) :
    (main inp).trace
      = [Effect.printLine "✓ Successfully connected to OpenAI API"]
        ++ (if inp.outputDirExists then [] else [Effect.mkdir output_dir])
        ++ [Effect.listDir images_dir,
            Effect.printLine "No image files found in the images directory."]
    ∧ (main inp).normalExit = true
    ∧ filesWritten (main inp).trace = [] := by
  have hm : (main inp).trace
      = [Effect.printLine "✓ Successfully connected to OpenAI API"]
        ++ (if inp.outputDirExists then [] else [Effect.mkdir output_dir])
        ++ [Effect.listDir images_dir,
            Effect.printLine "No image files found in the images directory."] := by
    cases hd : inp.outputDirExists <;>
      simp [main, mainBody, afterListing, hk, hc, h0, hd]
  refine ⟨hm, by simp [main, hk, hc], ?_⟩
  rw [hm]
  cases hd : inp.outputDirExists <;> simp [filesWritten, hd]

/-- Claim C5 witness: a listing with no image-extension file. -/
theorem zero_images_normal_termination_witness :
    (main ⟨true, true, "", true, ["readme.txt", "data.csv"], fun _ => "t",
        fun _ => "t", "ts", "d1", "d2"⟩).trace
      = [Effect.printLine "✓ Successfully connected to OpenAI API"]
        ++ (if (true : Bool) then [] else [Effect.mkdir output_dir])
        ++ [Effect.listDir images_dir,
            Effect.printLine "No image files found in the images directory."]
    ∧ (main ⟨true, true, "", true, ["readme.txt", "data.csv"], fun _ => "t",
        fun _ => "t", "ts", "d1", "d2"⟩).normalExit = true
    ∧ filesWritten (main ⟨true, true, "", true, ["readme.txt", "data.csv"],
        fun _ => "t", fun _ => "t", "ts", "d1", "d2"⟩).trace = [] :=
  zero_images_normal_termination _ rfl rfl (by decide)

/-- Claim C10: with a valid environment and the output directory absent, the
mkdir of the output directory appears in the trace right before the listing
of the input directory; in a zero-image run the trace is exactly the
connection notice, the mkdir, the listing, and the no-images notice, so the
output directory is still created while no file is written and no other
directory is created. -/
theorem output_dir_created_before_discovery (inp : MainInput)
    (hk : inp.apiKeyPresent = true) (hc : inp.connOk = true)
    (hd : inp.outputDirExists = false) :
    (∃ rest, (main inp).trace
      = [Effect.printLine "✓ Successfully connected to OpenAI API",
         Effect.mkdir output_dir, Effect.listDir images_dir] ++ rest)
    ∧ (discoverImageFiles inp.listing = [] →
        (main inp).trace
          = [Effect.printLine "✓ Successfully connected to OpenAI API",
             Effect.mkdir output_dir, Effect.listDir images_dir,
             Effect.printLine "No image files found in the images directory."]
          ∧ filesWritten (main inp).trace = []
          ∧ dirsCreated (main inp).trace = [output_dir]) := by
  have hm : (main inp).trace
      = [Effect.printLine "✓ Successfully connected to OpenAI API",
         Effect.mkdir output_dir, Effect.listDir images_dir]
        ++ afterListing inp := by
    simp [main, mainBody, hk, hc, hd]
  constructor
  · exact ⟨afterListing inp, hm⟩
  · intro h0
    have ha : afterListing inp
        = [Effect.printLine "No image files found in the images directory."] := by
      simp [afterListing, h0]
    rw [hm, ha]
    exact ⟨rfl, rfl, rfl⟩

/-- Claim C10 witness: concrete zero-image run with the directory absent. -/
theorem output_dir_created_before_discovery_witness :
    (∃ rest, (main ⟨true, true, "", false, ["notes.txt"], fun _ => "t",
        fun _ => "t", "ts", "d1", "d2"⟩).trace
      = [Effect.printLine "✓ Successfully connected to OpenAI API",
         Effect.mkdir output_dir, Effect.listDir images_dir] ++ rest)
    ∧ (discoverImageFiles ["notes.txt"] = [] →
        (main ⟨true, true, "", false, ["notes.txt"], fun _ => "t",
            fun _ => "t", "ts", "d1", "d2"⟩).trace
          = [Effect.printLine "✓ Successfully connected to OpenAI API",
             Effect.mkdir output_dir, Effect.listDir images_dir,
             Effect.printLine "No image files found in the images directory."]
          ∧ filesWritten (main ⟨true, true, "", false, ["notes.txt"],
              fun _ => "t", fun _ => "t", "ts", "d1", "d2"⟩).trace = []
          ∧ dirsCreated (main ⟨true, true, "", false, ["notes.txt"],
              fun _ => "t", fun _ => "t", "ts", "d1", "d2"⟩).trace
            = [output_dir]) :=
  output_dir_created_before_discovery _ rfl rfl rfl

/-- Claim C7: a file of the flat listing of the input directory contributes
an image path exactly when its lowercased name ends with one of the six
accepted extensions; concrete checks for an uppercase match and a
non-matching name. -/
theorem image_discovery_filter :
    (∀ listing p, p ∈ discoverImageFiles listing ↔
      ∃ file, file ∈ listing ∧ isImageFile file = true
        ∧ p = images_dir ++ "/" ++ file)
    ∧ (∀ file, isImageFile file = true ↔
      ∃ ext, ext ∈ image_extensions ∧ pyEndsWith (pyLower file) ext = true)
    ∧ isImageFile "SCAN.TIFF" = true
    ∧ isImageFile "notes.txt" = false := by
  refine ⟨?_, ?_, by decide, by decide⟩
  · intro listing p
    simp only [discoverImageFiles, List.mem_map, List.mem_filter]
    constructor
    · rintro ⟨file, ⟨hmem, himg⟩, hp⟩
      exact ⟨file, hmem, himg, hp.symm⟩
    · rintro ⟨file, hmem, himg, hp⟩
      exact ⟨file, ⟨hmem, himg⟩, hp.symm⟩
  · intro file
    simp [isImageFile, List.any_eq_true]

/-- Claim C3: the image sequence used by the run is sorted in the
lexicographic string order, it only depends on the set of listed files (any
permutation of the listing sorts to the same sequence), and both the report
file content and the summary file content written by the run are built from
that one sorted sequence, block by block in its order. -/
theorem report_summary_sorted_order (inp : MainInput) (l2 : List String)
    (hperm : inp.listing.Perm l2)
    (hk : inp.apiKeyPresent = true) (hc : inp.connOk = true)
    (hne : discoverImageFiles inp.listing ≠ []) :
    List.Sorted pyLe (sortedImageFiles inp.listing)
    ∧ sortedImageFiles l2 = sortedImageFiles inp.listing
    ∧ Effect.writeFile (reportFilePath inp.timestamp)
        (reportContent (sortedImageFiles inp.listing) inp.extractFirst
          inp.dateStr1)
        ∈ (main inp).trace
    ∧ Effect.writeFile (summaryFilePath inp.timestamp)
        (summaryContent (sortedImageFiles inp.listing) inp.extractSecond
          inp.dateStr2)
        ∈ (main inp).trace := by
  have hsorted : List.Sorted pyLe (sortedImageFiles inp.listing) :=
    List.sorted_insertionSort pyLe _
  have hdperm : (discoverImageFiles l2).Perm (discoverImageFiles inp.listing) :=
    ((hperm.filter _).map _).symm
  have heq : sortedImageFiles l2 = sortedImageFiles inp.listing :=
    List.eq_of_perm_of_sorted
      ((List.perm_insertionSort pyLe _).trans
        (hdperm.trans (List.perm_insertionSort pyLe _).symm))
      (List.sorted_insertionSort pyLe _) hsorted
  have htrace : (main inp).trace
      = [Effect.printLine "✓ Successfully connected to OpenAI API"]
        ++ mainBody inp := by
    simp [main, hk, hc]
  refine ⟨hsorted, heq, ?_, ?_⟩ <;>
  · rw [htrace]
    simp only [mainBody, afterListing, sortedImageFiles, hne, if_neg,
      ite_false, List.append_assoc, List.mem_append, List.mem_cons,
      List.mem_singleton]
    tauto

/-- Claim C3 witness: a three-image listing and a permutation of it. -/
theorem report_summary_sorted_order_witness :
    List.Sorted pyLe (sortedImageFiles ["b.png", "a.jpg", "c.bmp"])
    ∧ sortedImageFiles ["c.bmp", "a.jpg", "b.png"]
        = sortedImageFiles ["b.png", "a.jpg", "c.bmp"]
    ∧ Effect.writeFile (reportFilePath "ts")
        (reportContent (sortedImageFiles ["b.png", "a.jpg", "c.bmp"])
          (fun _ => "t") "d1")
        ∈ (main ⟨true, true, "", false, ["b.png", "a.jpg", "c.bmp"],
            fun _ => "t", fun _ => "t", "ts", "d1", "d2"⟩).trace
    ∧ Effect.writeFile (summaryFilePath "ts")
        (summaryContent (sortedImageFiles ["b.png", "a.jpg", "c.bmp"])
          (fun _ => "t") "d2")
        ∈ (main ⟨true, true, "", false, ["b.png", "a.jpg", "c.bmp"],
            fun _ => "t", fun _ => "t", "ts", "d1", "d2"⟩).trace :=
  report_summary_sorted_order
    ⟨true, true, "", false, ["b.png", "a.jpg", "c.bmp"],
      fun _ => "t", fun _ => "t", "ts", "d1", "d2"⟩
    ["c.bmp", "a.jpg", "b.png"] (by decide) rfl rfl (by decide)

theorem string_empty_append (s : String) : "" ++ s = s := by
  apply String.ext
  simp [String.data_append]

/-- Claim C4 (counterexample): for the fixed extracted string
"H17 247°F 16P" the code reports 3 words but 13 characters, not 14: Python
len counts code points and the degree sign is one code point. -/
theorem summary_counts_counterexample :
    word_count "H17 247°F 16P" = 3
    ∧ char_count "H17 247°F 16P" = 13
    ∧ ¬ char_count "H17 247°F 16P" = 14 := by
  decide

/-- Claim C4 (amended): the summary reports, per image, the number of
whitespace-separated tokens of the extracted text as the word count and the
number of code points as the character count; for the fixed extracted string
"H17 247°F 16P" the summary file written by the run carries the fragment
"Words: 3, Characters: 13". -/
theorem summary_counts_amended (inp : MainInput) (p : String)
    (hk : inp.apiKeyPresent = true) (hc : inp.connOk = true)
    (hs : sortedImageFiles inp.listing = [p])
    (he : inp.extractSecond p = "H17 247°F 16P") :
    (∀ text, word_count text = (pySplit text).length
      ∧ char_count text = text.length)
    ∧ Effect.writeFile (summaryFilePath inp.timestamp)
        (summaryContent [p] inp.extractSecond inp.dateStr2) ∈ (main inp).trace
    ∧ ("Words: " ++ toString (word_count "H17 247°F 16P")
        ++ ", Characters: " ++ toString (char_count "H17 247°F 16P")
        = "Words: 3, Characters: 13")
    ∧ ∃ pre post, summaryContent [p] inp.extractSecond inp.dateStr2
        = pre
          ++ ("Words: " ++ toString (word_count "H17 247°F 16P")
              ++ ", Characters: " ++ toString (char_count "H17 247°F 16P"))
          ++ post := by
  have hs2 : List.insertionSort pyLe (discoverImageFiles inp.listing) = [p] := hs
  have hne : discoverImageFiles inp.listing ≠ [] := by
    intro h
    rw [h] at hs2
    simp [List.insertionSort] at hs2
  refine ⟨fun text => ⟨rfl, rfl⟩, ?_, by decide, ?_⟩
  · have htrace : (main inp).trace
        = [Effect.printLine "✓ Successfully connected to OpenAI API"]
          ++ mainBody inp := by
      simp [main, hk, hc]
    rw [htrace]
    simp only [mainBody, afterListing, hne, if_neg, ite_false, hs2,
      List.append_assoc, List.mem_append, List.mem_cons, List.mem_singleton]
    tauto
  · refine ⟨summaryHeader 1 inp.dateStr2
        ++ (toString 1 ++ ". " ++ basename p ++ "\n" ++ "   "),
      "\n" ++ ("   Preview: " ++ "H17 247°F 16P".take 100 ++ "...\n\n"), ?_⟩
    show summaryHeader 1 inp.dateStr2
        ++ String.join [summaryBlock 1 p (inp.extractSecond p)] = _
    rw [he]
    show summaryHeader 1 inp.dateStr2
        ++ ("" ++ summaryBlock 1 p "H17 247°F 16P") = _
    rw [string_empty_append]
    unfold summaryBlock
    rw [show ("   Words: " : String) = "   " ++ "Words: " from by decide]
    simp only [string_append_assoc]

/-- Claim C4 witness: a concrete one-image run whose extraction returns the
fixed string. -/
theorem summary_counts_amended_witness :
    ((∀ text, word_count text = (pySplit text).length
      ∧ char_count text = text.length)
    ∧ Effect.writeFile (summaryFilePath "ts")
        (summaryContent ["images/r1.jpg"] (fun _ => "H17 247°F 16P") "d2")
        ∈ (main ⟨true, true, "", false, ["r1.jpg"], fun _ => "err",
            fun _ => "H17 247°F 16P", "ts", "d1", "d2"⟩).trace
    ∧ ("Words: " ++ toString (word_count "H17 247°F 16P")
        ++ ", Characters: " ++ toString (char_count "H17 247°F 16P")
        = "Words: 3, Characters: 13")
    ∧ ∃ pre post, summaryContent ["images/r1.jpg"]
          (fun _ => "H17 247°F 16P") "d2"
        = pre
          ++ ("Words: " ++ toString (word_count "H17 247°F 16P")
              ++ ", Characters: " ++ toString (char_count "H17 247°F 16P"))
          ++ post) :=
  summary_counts_amended
    ⟨true, true, "", false, ["r1.jpg"], fun _ => "err",
      fun _ => "H17 247°F 16P", "ts", "d1", "d2"⟩
    "images/r1.jpg" rfl rfl (by decide) rfl

/-! Bounds of the thumbnail computation. -/

theorem round_aspect_toNat_le (q : ℚ) (key : ℤ → ℚ) (m : ℕ) (h1 : 1 ≤ m)
    (hq : q ≤ (m : ℚ)) : (round_aspect q key).toNat ≤ m := by
  have hceil : ⌈q⌉ ≤ (m : ℤ) := Int.ceil_le.mpr (by exact_mod_cast hq)
  have hfloor : ⌊q⌋ ≤ (m : ℤ) := le_trans (Int.floor_le_ceil q) hceil
  rw [Int.toNat_le]
  unfold round_aspect
  apply max_le _ (by exact_mod_cast h1)
  split
  · exact hfloor
  · exact hceil

theorem thumbnailSize_le (w h : ℕ) :
    (thumbnailSize w h).1 ≤ max_size ∧ (thumbnailSize w h).2 ≤ max_size := by
  have hms : ((max_size : ℕ) : ℚ) / ((max_size : ℕ) : ℚ) = 1 := by
    norm_num [max_size]
  have h1 : 1 ≤ max_size := by norm_num [max_size]
  simp only [thumbnailSize]
  split_ifs with hfit hcond
  · exact ⟨hfit.1, hfit.2⟩
  · refine ⟨?_, le_refl _⟩
    apply round_aspect_toNat_le _ _ _ h1
    rw [hms] at hcond
    have hwh : ((w : ℚ) / (h : ℚ)) ≤ 1 := hcond
    calc ((max_size : ℕ) : ℚ) * ((w : ℚ) / (h : ℚ))
        ≤ ((max_size : ℕ) : ℚ) * 1 :=
          mul_le_mul_of_nonneg_left hwh (by positivity)
      _ = ((max_size : ℕ) : ℚ) := mul_one _
  · refine ⟨le_refl _, ?_⟩
    apply round_aspect_toNat_le _ _ _ h1
    rw [hms] at hcond
    push_neg at hcond
    exact div_le_self (by positivity) (le_of_lt hcond)

theorem thumbnailSize_oversized : thumbnailSize 10000 5000 = (8192, 4096) := by
  simp only [thumbnailSize, max_size]
  rw [if_neg (by norm_num)]
  rw [if_neg (by norm_num)]
  have hq : ((8192 : ℕ) : ℚ) / (((10000 : ℕ) : ℚ) / ((5000 : ℕ) : ℚ)) = 4096 := by
    norm_num
  rw [hq]
  unfold round_aspect
  rw [show ((4096 : ℚ)) = ((4096 : ℤ) : ℚ) from by norm_num,
    Int.floor_intCast, Int.ceil_intCast]
  rw [if_pos (le_refl _)]
  decide

theorem processedImage_dims_le (img : PILImage) :
    (processedImage img).width ≤ max_size
    ∧ (processedImage img).height ≤ max_size := by
  simp only [processedImage]
  set j := if img.mode ≠ "RGB" then { img with mode := "RGB" } else img with hj
  by_cases hbig : j.width > max_size ∨ j.height > max_size
  · rw [if_pos hbig]
    exact thumbnailSize_le j.width j.height
  · rw [if_neg hbig]
    push_neg at hbig
    exact ⟨hbig.1, hbig.2⟩

theorem processedImage_dims_keep (img : PILImage)
    (hw : img.width ≤ max_size) (hh : img.height ≤ max_size) :
    (processedImage img).width = img.width
    ∧ (processedImage img).height = img.height := by
  simp only [processedImage]
  set j := if img.mode ≠ "RGB" then { img with mode := "RGB" } else img with hj
  have hjw : j.width = img.width := by
    rw [hj]
    split <;> rfl
  have hjh : j.height = img.height := by
    rw [hj]
    split <;> rfl
  have hbig : ¬(j.width > max_size ∨ j.height > max_size) := by
    push_neg
    rw [hjw, hjh]
    exact ⟨hw, hh⟩
  rw [if_neg hbig]
  exact ⟨hjw, hjh⟩

theorem processedImage_rgb_oversized (img : PILImage) (hm : img.mode = "RGB")
    (hbig : img.width > max_size ∨ img.height > max_size) :
    processedImage img
      = { img with width := (thumbnailSize img.width img.height).1, height := (thumbnailSize img.width img.height).2 } := by
  have hmode : ¬(img.mode ≠ "RGB") := by simp [hm]
  simp only [processedImage, if_neg hmode]
  rw [if_pos hbig]

/-- Claim C2: on every well-formed decodable image the preparation step
returns a payload (no exception) whose decoded dimensions are both at most
8192; on the oversized 10000x5000 image the output is 8192x4096, so the
larger dimension equals 8192 and the 2:1 aspect ratio is preserved
exactly. -/
theorem prepare_bounds_and_oversized_downscale :
    (∀ img : PILImage, 1 ≤ img.width → 1 ≤ img.height →
      ∃ out, encode_image_to_base64 (some img) = .ok out
        ∧ out.width ≤ max_size ∧ out.height ≤ max_size)
    ∧ (∃ out, encode_image_to_base64 (some ⟨"RGB", 10000, 5000⟩) = .ok out
        ∧ out.width = 8192 ∧ out.height = 4096
        ∧ max out.width out.height = 8192
        ∧ out.width * 5000 = out.height * 10000) := by
  constructor
  · intro img _ _
    exact ⟨processedImage img, rfl, processedImage_dims_le img⟩
  · refine ⟨⟨"RGB", 8192, 4096⟩, ?_, rfl, rfl, by decide, by decide⟩
    show Except.ok (processedImage ⟨"RGB", 10000, 5000⟩) = _
    rw [processedImage_rgb_oversized ⟨"RGB", 10000, 5000⟩ rfl
      (Or.inl (by norm_num [max_size]))]
    rw [thumbnailSize_oversized]

/-- Claim C2 witness: a small grayscale image goes through without error and
within the bound. -/
theorem prepare_bounds_witness :
    ∃ out, encode_image_to_base64 (some ⟨"L", 3, 5⟩) = .ok out
      ∧ out.width ≤ max_size ∧ out.height ≤ max_size :=
  prepare_bounds_and_oversized_downscale.1 ⟨"L", 3, 5⟩ (by decide) (by decide)

/-- Claim C8: when both dimensions are already at or under 8192, the
prepared payload keeps the exact input dimensions: no downscaling. -/
theorem no_downscale_under_threshold (img : PILImage)
    (hw : img.width ≤ max_size) (hh : img.height ≤ max_size) :
    ∃ out, encode_image_to_base64 (some img) = .ok out
      ∧ out.width = img.width ∧ out.height = img.height :=
  ⟨processedImage img, rfl, processedImage_dims_keep img hw hh⟩

/-- Claim C8 witness: a 640x480 image keeps its dimensions. -/
theorem no_downscale_under_threshold_witness :
    ∃ out, encode_image_to_base64 (some ⟨"L", 640, 480⟩) = .ok out
      ∧ out.width = (⟨"L", 640, 480⟩ : PILImage).width
      ∧ out.height = (⟨"L", 640, 480⟩ : PILImage).height :=
  no_downscale_under_threshold ⟨"L", 640, 480⟩ (by decide) (by decide)

end TextExtractor
